import Mathlib

/-!
Verification development for the `InvestmentSummaryGenerator` rule engine of
`src/investment_summary.py`.

The engine consumes a financial-data record (a ratio table and a growth-rate
table) and produces judgment artifacts: bull/bear cases, a risk map, red
flags, a valuation range and key metrics.  Numbers are embedded as `ℚ`.

A stored table cell is modelled by `RawVal`: a clean numeric value, a NaN,
a Python `None`, or a value on which `float()` raises (`bad`).  The Python
`try/except` bodies of the two accessors are modelled in the `Except Unit`
monad (an `error` is a raised exception); the accessors themselves catch.
`assess_risks` compares possibly-`None` values directly (Python would raise
`TypeError` on `None`), so it is modelled in `Except Unit` as well; all other
judgment methods guard every comparison behind an explicit `is not None`
check and are therefore pure total functions.
-/

/-- A raw value stored in the ratios table or the growth-rates table:
a numeric value, a float NaN, a Python `None`, or a value on which `float()`
raises (e.g. a non-numeric string). -/
inductive RawVal where
  | num (q : ℚ)
  | nanv
  | nonev
  | bad
deriving DecidableEq

/-- The financial-data record as seen by the engine: a lookup into the
ratios table (abstracting the row/column-oriented DataFrame of the source:
a name resolves to a stored cell or to nothing, covering the missing-key,
empty-table and empty-series cases) and a lookup into the `growth_rates`
dict.  `ticker`, `company_name` and `market_data` are never read by the
judgment methods and are omitted. -/
structure FinRecord where
  ratios : String → Option RawVal
  growth : String → Option RawVal

/-- `pd.notna` on a stored cell: false exactly on NaN and `None`. -/
def notna : RawVal → Bool
  | .num _ => true
  | .nanv => false
  | .nonev => false
  | .bad => true

/-- Python `float(val)`: succeeds on numeric values, raises on `bad`
values.  The NaN and `None` branches are unreachable in the accessors
(both are filtered by the `notna` guard first) and are modelled as raising. -/
def toFloat : RawVal → Except Unit ℚ
  | .num q => .ok q
  | .nanv => .error ()
  | .nonev => .error ()
  | .bad => .error ()

/-- Body of the `try:` block of `_get_ratio`: look the name up; on a hit,
`return float(val) if pd.notna(val) else default`; on a miss (missing key,
empty table, empty series) return the default.  An `error` is a raised
exception (only `float` can raise here). -/
def get_ratio_body (r : FinRecord) (name : String) (default : Option ℚ) :
    Except Unit (Option ℚ) :=
  match r.ratios name with
  | Option.none => .ok default
  | Option.some v =>
      if notna v then
        match toFloat v with
        | .ok q => .ok (Option.some q)
        | .error e => .error e
      else .ok default

/-- `_get_ratio`: the body wrapped in `try/except` — any raised exception
yields the caller-supplied default. -/
def _get_ratio (r : FinRecord) (name : String) (default : Option ℚ) :
    Option ℚ :=
  match get_ratio_body r name default with
  | .ok v => v
  | .error _ => default

/-- Body of the `try:` block of `_get_growth_rate`:
`val = growth_rates.get(name, default)` followed by
`return float(val) if val is not None and pd.notna(val) else default`. -/
def get_growth_body (r : FinRecord) (name : String) (default : Option ℚ) :
    Except Unit (Option ℚ) :=
  let val : RawVal :=
    match r.growth name with
    | Option.some v => v
    | Option.none =>
        match default with
        | Option.some q => .num q
        | Option.none => .nonev
  if (match val with | .nonev => false | _ => true) && notna val then
    match toFloat val with
    | .ok q => .ok (Option.some q)
    | .error e => .error e
  else .ok default

/-- `_get_growth_rate`: the body wrapped in `try/except`. -/
def _get_growth_rate (r : FinRecord) (name : String) (default : Option ℚ) :
    Option ℚ :=
  match get_growth_body r name default with
  | .ok v => v
  | .error _ => default

/-! ### Decimal formatting

Models CPython `format(x, '.1f')` / `format(x, '.2f')` on the exact
rational value: scale, round half-to-even, render with the fixed number of
fractional digits. -/

/-- Floor of a rational, computable (`Int.floor` does not reduce in the
kernel). -/
def qfloor (x : ℚ) : ℤ := Int.fdiv x.num x.den

/-- Round to the nearest integer, ties to even. -/
def roundHalfEven (x : ℚ) : ℤ :=
  let f : ℤ := qfloor x
  let frac : ℚ := x - (f : ℚ)
  if frac < 1/2 then f
  else if 1/2 < frac then f + 1
  else if f % 2 = 0 then f else f + 1

/-- Left-pad a digit string with zeros to length `k`. -/
def padZeros (k : Nat) (s : String) : String :=
  String.mk (List.replicate (k - s.length) '0') ++ s

/-- Fixed-point rendering with `nd` fractional digits (`'.1f'`, `'.2f'`). -/
def fmtFixed (nd : Nat) (x : ℚ) : String :=
  let n : ℤ := roundHalfEven (x * (10 : ℚ) ^ nd)
  let m : ℕ := n.natAbs
  (if n < 0 then "-" else "") ++
    (toString (m / 10 ^ nd) ++ ("." ++ padZeros nd (toString (m % 10 ^ nd))))

/-! ### Bull case -/

/-- Rule 1 message: `f"Strong profitability: ROE of {roe*100:.1f}%, ..."`. -/
def bullMsg1 (roe : ℚ) : String :=
  "Strong profitability: ROE of " ++
    (fmtFixed 1 (roe * 100) ++
      "%, indicating efficient use of shareholder capital")

/-- Rule 2 message. -/
def bullMsg2 (gm : ℚ) : String :=
  "Healthy margins: Gross margin of " ++
    (fmtFixed 1 (gm * 100) ++ "%, demonstrating pricing power")

/-- Rule 3 message. -/
def bullMsg3 (om : ℚ) : String :=
  "Strong operating efficiency: Operating margin of " ++
    (fmtFixed 1 (om * 100) ++ "%")

/-- Rule 4 message. -/
def bullMsg4 (cr : ℚ) : String :=
  "Solid liquidity: Current ratio of " ++
    (fmtFixed 2 cr ++ "x provides financial flexibility")

/-- Rule 5 message. -/
def bullMsg5 (de : ℚ) : String :=
  "Conservative balance sheet: Debt/Equity of " ++
    (fmtFixed 2 de ++ "x indicates low financial risk")

/-- Rule 6 message. -/
def bullMsg6 (g : ℚ) : String :=
  "Consistent growth: Revenue CAGR of " ++
    (fmtFixed 1 (g * 100) ++ "% demonstrates market expansion")

/-- Rule 7 message (fixed text). -/
def bullMsg7 : String :=
  "Excellent cash generation: Operating cash flow exceeds net income"

/-- One signal rule: `if v is not None and cond(v): points.append(msg(v))`,
as the list segment it contributes. -/
def fireIf (v : Option ℚ) (cond : ℚ → Bool) (msg : ℚ → String) :
    List String :=
  match v with
  | Option.some x => if cond x then [msg x] else []
  | Option.none => []

/-- Two-value signal rule (the bull cash-flow rule):
`if a is not None and b is not None and cond(a,b): points.append(msg)`. -/
def fireIf2 (a b : Option ℚ) (cond : ℚ → ℚ → Bool) (msg : String) :
    List String :=
  match a, b with
  | Option.some x, Option.some y => if cond x y then [msg] else []
  | _, _ => []

/-- The bull points appended by the seven rules, in source order. -/
def bull_fired (r : FinRecord) : List String :=
  fireIf (_get_ratio r ("ROE") Option.none)
      (fun v => decide (v > mkRat 15 100)) bullMsg1 ++
  fireIf (_get_ratio r ("Gross_Margin") Option.none)
      (fun v => decide (v > mkRat 30 100)) bullMsg2 ++
  fireIf (_get_ratio r ("Operating_Margin") Option.none)
      (fun v => decide (v > mkRat 15 100)) bullMsg3 ++
  fireIf (_get_ratio r ("Current_Ratio") Option.none)
      (fun v => decide (v > mkRat 15 10)) bullMsg4 ++
  fireIf (_get_ratio r ("Debt_to_Equity") Option.none)
      (fun v => decide (v < mkRat 5 10)) bullMsg5 ++
  fireIf (_get_growth_rate r ("Total_Revenue_CAGR") Option.none)
      (fun v => decide (v > mkRat 10 100)) bullMsg6 ++
  fireIf2 (_get_ratio r ("Net_Income") Option.none)
      (_get_ratio r ("Operating_Cash_Flow") Option.none)
      (fun ni ocf => decide (ocf > ni) && decide (ni > 0)) bullMsg7

/-- The fixed bull fallback list. -/
def bull_fallbacks : List String :=
  ["Established market position with brand recognition",
   "Diversified revenue streams reduce concentration risk",
   "Experienced management team with track record"]

/-- One iteration step of the padding loop:
`if fallback not in points and len(points) < 3: points.append(fallback)`. -/
def padStep (acc : List String) (fb : String) : List String :=
  if fb ∉ acc ∧ acc.length < 3 then acc ++ [fb] else acc

/-- One pass of the inner `for fallback in fallback_points` loop. -/
def padPass (acc : List String) (fbs : List String) : List String :=
  fbs.foldl padStep acc

/-- The `while len(points) < 3` loop, fuelled.  For the fallback lists used
here (three pairwise-distinct strings) a single pass already reaches length
3, so the fuel supplied by `padPoints` is never exhausted (proved in
`padPoints_take_eq`). -/
def padWhile (fuel : Nat) (acc : List String) (fbs : List String) :
    List String :=
  match fuel with
  | 0 => acc
  | Nat.succ n => if acc.length < 3 then padWhile n (padPass acc fbs) fbs else acc

/-- The padding phase of `generate_bull_case` / `generate_bear_case`. -/
def padPoints (pts : List String) (fbs : List String) : List String :=
  padWhile (pts.length + 2) pts fbs

/-- `generate_bull_case`: fire the rules, pad from the fallback list until
length 3, truncate to 3. -/
def generate_bull_case (r : FinRecord) : List String :=
  (padPoints (bull_fired r) bull_fallbacks).take 3

/-! ### Bear case -/

/-- Bear rule 1 message. -/
def bearMsg1 (pe : ℚ) : String :=
  "Premium valuation: P/E ratio of " ++
    (fmtFixed 1 pe ++ "x may limit upside potential")

/-- Bear rule 2 message. -/
def bearMsg2 (de : ℚ) : String :=
  "High leverage risk: Debt/Equity of " ++
    (fmtFixed 2 de ++ "x increases financial vulnerability")

/-- Bear rule 3 message: branches on the sign of the CAGR. -/
def bearMsg3 (g : ℚ) : String :=
  if g < 0 then
    "Revenue decline: " ++
      (fmtFixed 1 (g * 100) ++ "% CAGR signals market share loss")
  else
    "Slowing growth: " ++
      (fmtFixed 1 (g * 100) ++ "% revenue CAGR suggests market maturation")

/-- Bear rule 4 message. -/
def bearMsg4 (om : ℚ) : String :=
  "Thin margins: Operating margin of " ++
    (fmtFixed 1 (om * 100) ++ "% leaves little room for error")

/-- Bear rule 5 message. -/
def bearMsg5 (cr : ℚ) : String :=
  "Liquidity concerns: Current ratio of " ++
    (fmtFixed 2 cr ++ "x may strain operations")

/-- Bear rule 6 message: branches on the sign of the ROE. -/
def bearMsg6 (roe : ℚ) : String :=
  if roe < 0 then
    "Negative profitability: ROE of " ++
      (fmtFixed 1 (roe * 100) ++ "% indicates losses")
  else
    "Low returns: ROE of " ++
      (fmtFixed 1 (roe * 100) ++ "% underperforms cost of equity")

/-- The bear points appended by the six rules, in source order. -/
def bear_fired (r : FinRecord) : List String :=
  fireIf (_get_ratio r ("PE_Ratio") Option.none)
      (fun v => decide (v > 30)) bearMsg1 ++
  fireIf (_get_ratio r ("Debt_to_Equity") Option.none)
      (fun v => decide (v > mkRat 15 10)) bearMsg2 ++
  fireIf (_get_growth_rate r ("Total_Revenue_CAGR") Option.none)
      (fun v => decide (v < mkRat 3 100)) bearMsg3 ++
  fireIf (_get_ratio r ("Operating_Margin") Option.none)
      (fun v => decide (v < mkRat 5 100)) bearMsg4 ++
  fireIf (_get_ratio r ("Current_Ratio") Option.none)
      (fun v => decide (v < 1)) bearMsg5 ++
  fireIf (_get_ratio r ("ROE") Option.none)
      (fun v => decide (v < mkRat 5 100)) bearMsg6

/-- The fixed bear fallback list. -/
def bear_fallbacks : List String :=
  ["Competitive pressure may compress margins over time",
   "Macroeconomic sensitivity could impact near-term results",
   "Execution risk in strategic initiatives"]

/-- `generate_bear_case`: same pad/truncate mechanics as the bull case. -/
def generate_bear_case (r : FinRecord) : List String :=
  (padPoints (bear_fired r) bear_fallbacks).take 3

/-! ### Risk assessment

The Financial Health and Liquidity branches compare the looked-up value
directly (`current_ratio >= 1.5`, ...); on a Python `None` this would raise
`TypeError`, so the comparison is modelled in `Except Unit`.  The other
three categories guard with `is not None` and are pure. -/

/-- A Python comparison on a possibly-`None` value: raises on `None`. -/
def cmpNum (v : Option ℚ) (p : ℚ → Bool) : Except Unit Bool :=
  match v with
  | Option.some x => .ok (p x)
  | Option.none => .error ()

/-- Pure decision for Financial Health on known-numeric inputs. -/
def financialHealthLevel (cr de : ℚ) : String :=
  if cr ≥ mkRat 15 10 ∧ de ≤ mkRat 5 10 then "LOW"
  else if cr < 1 ∨ de > 2 then "HIGH"
  else "MODERATE"

/-- Financial Health branch, with Python short-circuit evaluation:
`if cr >= 1.5 and de <= 0.5: LOW elif cr < 1.0 or de > 2.0: HIGH else:
MODERATE`. -/
def financialHealthE (cr de : Option ℚ) : Except Unit String := do
  let b1 ← cmpNum cr (fun x => decide (x ≥ mkRat 15 10))
  let c1 ← if b1 then cmpNum de (fun x => decide (x ≤ mkRat 5 10)) else pure false
  if c1 then pure ("LOW")
  else do
    let b2 ← cmpNum cr (fun x => decide (x < 1))
    let c2 ← if b2 then pure true else cmpNum de (fun x => decide (x > 2))
    if c2 then pure ("HIGH") else pure ("MODERATE")

/-- Pure decision for Liquidity on a known-numeric input. -/
def liquidityLevel (cr : ℚ) : String :=
  if cr ≥ 2 then "LOW" else if cr < 1 then "HIGH" else "MODERATE"

/-- Liquidity branch: `if cr >= 2.0: LOW elif cr < 1.0: HIGH else:
MODERATE`. -/
def liquidityE (cr : Option ℚ) : Except Unit String := do
  let b1 ← cmpNum cr (fun x => decide (x ≥ 2))
  if b1 then pure ("LOW")
  else do
    let b2 ← cmpNum cr (fun x => decide (x < 1))
    if b2 then pure ("HIGH") else pure ("MODERATE")

/-- Valuation branch, including the `is not None` guard of the source. -/
def valuationLevel (pe : Option ℚ) : String :=
  match pe with
  | Option.some v => if v < 20 then "LOW" else if v > 40 then "HIGH" else "MODERATE"
  | Option.none => "MODERATE"

/-- Growth branch, including the `is not None` guard of the source. -/
def growthLevel (g : Option ℚ) : String :=
  match g with
  | Option.some v => if v > mkRat 10 100 then "LOW" else if v < 0 then "HIGH" else "MODERATE"
  | Option.none => "MODERATE"

/-- Profitability branch, including the `is not None` guards. -/
def profitabilityLevel (roe om : Option ℚ) : String :=
  match roe, om with
  | Option.some rv, Option.some ov =>
      if rv > mkRat 15 100 ∧ ov > mkRat 15 100 then "LOW"
      else if rv < 0 ∨ ov < mkRat 5 100 then "HIGH"
      else "MODERATE"
  | _, _ => "MODERATE"

/-- `assess_risks`: the five category decisions, inserted in source order. -/
def assess_risks (r : FinRecord) :
    Except Unit (List (String × String)) := do
  let current_ratio := _get_ratio r ("Current_Ratio") (Option.some 1)
  let de_ratio := _get_ratio r ("Debt_to_Equity") (Option.some 1)
  let fh ← financialHealthE current_ratio de_ratio
  let valuation := valuationLevel (_get_ratio r ("PE_Ratio") (Option.some 20))
  let growth :=
    growthLevel (_get_growth_rate r ("Total_Revenue_CAGR") (Option.some (mkRat 5 100)))
  let liquidity ← liquidityE current_ratio
  let profitability :=
    profitabilityLevel (_get_ratio r ("ROE") (Option.some (mkRat 10 100)))
      (_get_ratio r ("Operating_Margin") (Option.some (mkRat 10 100)))
  pure [("Financial Health", fh), ("Valuation", valuation),
        ("Growth", growth), ("Liquidity", liquidity),
        ("Profitability", profitability)]

/-- `assess_risks` with the `None` guards removed and every lookup collapsed
to its guaranteed numeric value (following the claim that the guards always
succeed): compared against `assess_risks` in the claim-10 theorem. -/
def assess_risks_unguarded (r : FinRecord) : List (String × String) :=
  let cr := (_get_ratio r ("Current_Ratio") (Option.some 1)).getD 1
  let de := (_get_ratio r ("Debt_to_Equity") (Option.some 1)).getD 1
  let pe := (_get_ratio r ("PE_Ratio") (Option.some 20)).getD 20
  let g := (_get_growth_rate r ("Total_Revenue_CAGR") (Option.some (mkRat 5 100))).getD (mkRat 5 100)
  let roe := (_get_ratio r ("ROE") (Option.some (mkRat 10 100))).getD (mkRat 10 100)
  let om := (_get_ratio r ("Operating_Margin") (Option.some (mkRat 10 100))).getD (mkRat 10 100)
  [("Financial Health", financialHealthLevel cr de),
   ("Valuation", if pe < 20 then "LOW" else if pe > 40 then "HIGH" else "MODERATE"),
   ("Growth", if g > mkRat 10 100 then "LOW" else if g < 0 then "HIGH" else "MODERATE"),
   ("Liquidity", liquidityLevel cr),
   ("Profitability",
     if roe > mkRat 15 100 ∧ om > mkRat 15 100 then "LOW"
     else if roe < 0 ∨ om < mkRat 5 100 then "HIGH"
     else "MODERATE")]

/-! ### Red flags -/

/-- Red-flag warning 1. -/
def redMsg1 (roe : ℚ) : String :=
  "Negative return on equity (" ++
    (fmtFixed 1 (roe * 100) ++
      "%) - company is destroying shareholder value")

/-- Red-flag warning 2. -/
def redMsg2 (de : ℚ) : String :=
  "High leverage (" ++ (fmtFixed 2 de ++ "x D/E) - elevated bankruptcy risk")

/-- Red-flag warning 3. -/
def redMsg3 (cr : ℚ) : String :=
  "Liquidity crisis (Current Ratio: " ++
    (fmtFixed 2 cr ++ "x) - may struggle to meet obligations")

/-- Red-flag warning 4. -/
def redMsg4 (g : ℚ) : String :=
  "Significant revenue decline (" ++
    (fmtFixed 1 (g * 100) ++ "% CAGR) - business is shrinking")

/-- Red-flag warning 5. -/
def redMsg5 (pe : ℚ) : String :=
  "Extreme valuation (P/E: " ++ (fmtFixed 1 pe ++ "x) - priced for perfection")

/-- The success sentinel appended when no red flag triggered. -/
def redFlagSentinel : String :=
  "✅ No major red flags detected - fundamentals appear healthy"

/-- The warnings appended by the five threshold checks, in source order. -/
def red_fired (r : FinRecord) : List String :=
  fireIf (_get_ratio r ("ROE") Option.none)
      (fun v => decide (v < 0)) redMsg1 ++
  fireIf (_get_ratio r ("Debt_to_Equity") Option.none)
      (fun v => decide (v > 2)) redMsg2 ++
  fireIf (_get_ratio r ("Current_Ratio") Option.none)
      (fun v => decide (v < mkRat 8 10)) redMsg3 ++
  fireIf (_get_growth_rate r ("Total_Revenue_CAGR") Option.none)
      (fun v => decide (v < mkRat (-5) 100)) redMsg4 ++
  fireIf (_get_ratio r ("PE_Ratio") Option.none)
      (fun v => decide (v > 100)) redMsg5

/-- `detect_red_flags`: the triggered warnings, or the success sentinel when
none triggered. -/
def detect_red_flags (r : FinRecord) : List String :=
  let red_flags := red_fired r
  if red_flags = [] then [redFlagSentinel] else red_flags

/-! ### Valuation range and key metrics -/

/-- The dict returned by `calculate_valuation_range`. -/
structure ValuationRange where
  bear_case : ℚ
  base_case : ℚ
  bull_case : ℚ
  bear_pct : ℚ
  bull_pct : ℚ
deriving DecidableEq

/-- `calculate_valuation_range`: degenerate all-zero scenario when the price
is missing or non-positive, otherwise −20% / price / +25%. -/
def calculate_valuation_range (r : FinRecord) : ValuationRange :=
  match _get_ratio r ("Current_Price") Option.none with
  | Option.none => ⟨0, 0, 0, -20, 25⟩
  | Option.some p =>
      if p ≤ 0 then ⟨0, 0, 0, -20, 25⟩
      else ⟨p * mkRat 80 100, p, p * mkRat 125 100, -20, 25⟩

/-- `get_key_metrics`: fixed-order extraction of eight ratios, no
defaulting. -/
def get_key_metrics (r : FinRecord) : List (String × Option ℚ) :=
  [("Current Price", _get_ratio r ("Current_Price") Option.none),
   ("P/E Ratio", _get_ratio r ("PE_Ratio") Option.none),
   ("Market Cap", _get_ratio r ("Market_Cap") Option.none),
   ("Revenue", _get_ratio r ("Total_Revenue") Option.none),
   ("Net Income", _get_ratio r ("Net_Income") Option.none),
   ("ROE", _get_ratio r ("ROE") Option.none),
   ("Debt/Equity", _get_ratio r ("Debt_to_Equity") Option.none),
   ("Current Ratio", _get_ratio r ("Current_Ratio") Option.none)]

/-! ### Engine state (for the purity claim)

The source methods read `self` and never assign to it or to the record, so
the state-passing translation of each method returns its state unchanged. -/

/-- The engine state: the record captured by `__init__`. -/
structure EngineState where
  record : FinRecord

/-- State-passing translation of `generate_bull_case`. -/
def generate_bull_caseS (s : EngineState) : List String × EngineState :=
  (generate_bull_case s.record, s)

/-- State-passing translation of `generate_bear_case`. -/
def generate_bear_caseS (s : EngineState) : List String × EngineState :=
  (generate_bear_case s.record, s)

/-- State-passing translation of `assess_risks`. -/
def assess_risksS (s : EngineState) :
    Except Unit (List (String × String)) × EngineState :=
  (assess_risks s.record, s)

/-- State-passing translation of `detect_red_flags`. -/
def detect_red_flagsS (s : EngineState) : List String × EngineState :=
  (detect_red_flags s.record, s)

/-- State-passing translation of `calculate_valuation_range`. -/
def calculate_valuation_rangeS (s : EngineState) :
    ValuationRange × EngineState :=
  (calculate_valuation_range s.record, s)

/-- State-passing translation of `get_key_metrics`. -/
def get_key_metricsS (s : EngineState) :
    List (String × Option ℚ) × EngineState :=
  (get_key_metrics s.record, s)

/-- The fully empty record: every lookup misses. -/
def emptyRecord : FinRecord where
  ratios := fun _ => Option.none
  growth := fun _ => Option.none

/-! ### Message keys

Every bull/bear message and fallback string is determined up to its first
12 characters by which rule produced it (the formatted number is always
inserted later than position 12), so `msgKey` discriminates messages of
different rules regardless of the inserted values. -/

/-- The first 12 characters of a message. -/
def msgKey (s : String) : List Char := s.data.take 12

/-- The keys of the seven bull-rule messages, in rule order (structured as
appends to mirror the segments of `bull_fired`). -/
def bullKeys : List (List Char) :=
  [("Strong profitability: ROE of ").data.take 12] ++
    [("Healthy margins: Gross margin of ").data.take 12] ++
    [("Strong operating efficiency: Operating margin of ").data.take 12] ++
    [("Solid liquidity: Current ratio of ").data.take 12] ++
    [("Conservative balance sheet: Debt/Equity of ").data.take 12] ++
    [("Consistent growth: Revenue CAGR of ").data.take 12] ++
    [msgKey bullMsg7]

/-- The keys of the bear-rule messages, in rule order; rules 3 and 6 each
contribute their two possible wordings. -/
def bearKeys : List (List Char) :=
  [("Premium valuation: P/E ratio of ").data.take 12] ++
    [("High leverage risk: Debt/Equity of ").data.take 12] ++
    [("Revenue decline: ").data.take 12, ("Slowing growth: ").data.take 12] ++
    [("Thin margins: Operating margin of ").data.take 12] ++
    [("Liquidity concerns: Current ratio of ").data.take 12] ++
    [("Negative profitability: ROE of ").data.take 12,
     ("Low returns: ROE of ").data.take 12]

/-! ### Concrete records used as witnesses -/

/-- A record on which all seven bull signals fire. -/
def bullWitnessRecord : FinRecord where
  ratios := fun n =>
    if n = "ROE" then Option.some (.num 1)
    else if n = "Gross_Margin" then Option.some (.num 1)
    else if n = "Operating_Margin" then Option.some (.num 1)
    else if n = "Current_Ratio" then Option.some (.num 2)
    else if n = "Debt_to_Equity" then Option.some (.num 0)
    else if n = "Net_Income" then Option.some (.num 10)
    else if n = "Operating_Cash_Flow" then Option.some (.num 12)
    else Option.none
  growth := fun n =>
    if n = "Total_Revenue_CAGR" then Option.some (.num 1) else Option.none

/-- A record whose stored values make `float()` raise. -/
def badValueRecord : FinRecord where
  ratios := fun n => if n = "BadRatio" then Option.some .bad else Option.none
  growth := fun n => if n = "BadGrowth" then Option.some .bad else Option.none

/-- A record with `Debt_to_Equity` exactly 0.5. -/
def deHalfRecord : FinRecord where
  ratios := fun n =>
    if n = "Debt_to_Equity" then Option.some (.num (mkRat 1 2)) else Option.none
  growth := fun _ => Option.none

/-- A record with `Current_Price` 100. -/
def priceRecord : FinRecord where
  ratios := fun n =>
    if n = "Current_Price" then Option.some (.num 100) else Option.none
  growth := fun _ => Option.none

/-! ## Lemmas -/

/-- Reducing a bind of a known-`ok` computation. -/
lemma ok_bind {α β : Type} (a : α) (f : α → Except Unit β) :
    ((Except.ok a : Except Unit α) >>= f) = f a := rfl

/-- `pure` on `Except Unit` is `Except.ok`. -/
lemma pure_ok {α : Type} (a : α) : (pure a : Except Unit α) = Except.ok a := rfl

/-- A ratio lookup with a numeric default always resolves to a numeric
value, namely the one `getD` extracts. -/
lemma get_ratio_some_eq (r : FinRecord) (name : String) (d : ℚ) :
    _get_ratio r name (Option.some d) =
      Option.some ((_get_ratio r name (Option.some d)).getD d) := by
  unfold _get_ratio get_ratio_body
  cases hr : r.ratios name with
  | none => rfl
  | some v => cases v <;> rfl

/-- A growth lookup with a numeric default always resolves to a numeric
value. -/
lemma get_growth_some_eq (r : FinRecord) (name : String) (d : ℚ) :
    _get_growth_rate r name (Option.some d) =
      Option.some ((_get_growth_rate r name (Option.some d)).getD d) := by
  unfold _get_growth_rate get_growth_body
  cases hr : r.growth name with
  | none => rfl
  | some v => cases v <;> rfl

/-- A raised exception inside the `_get_ratio` body is caught: the call
returns the default. -/
lemma get_ratio_catch (r : FinRecord) (name : String) (d : Option ℚ)
    (h : (get_ratio_body r name d).isOk = false) :
    _get_ratio r name d = d := by
  unfold _get_ratio
  cases hb : get_ratio_body r name d with
  | ok v => rw [hb] at h; exact absurd h (by rw [show (Except.ok v).isOk = true from rfl]; simp)
  | error e => rfl

/-- A raised exception inside the `_get_growth_rate` body is caught. -/
lemma get_growth_catch (r : FinRecord) (name : String) (d : Option ℚ)
    (h : (get_growth_body r name d).isOk = false) :
    _get_growth_rate r name d = d := by
  unfold _get_growth_rate
  cases hb : get_growth_body r name d with
  | ok v => rw [hb] at h; exact absurd h (by rw [show (Except.ok v).isOk = true from rfl]; simp)
  | error e => rfl

/-- The padding step appends a missing fallback while below length 3. -/
lemma padStep_grow (acc : List String) (fb : String) (h1 : fb ∉ acc)
    (h2 : acc.length < 3) : padStep acc fb = acc ++ [fb] := by
  unfold padStep; rw [if_pos ⟨h1, h2⟩]

/-- The padding step skips a fallback that is already present. -/
lemma padStep_mem (acc : List String) (fb : String) (h : fb ∈ acc) :
    padStep acc fb = acc := by
  unfold padStep
  rw [if_neg]
  rintro ⟨h1, _⟩
  exact h1 h

/-- The padding step does nothing once length 3 is reached. -/
lemma padStep_full (acc : List String) (fb : String)
    (h : ¬ acc.length < 3) : padStep acc fb = acc := by
  unfold padStep
  rw [if_neg]
  rintro ⟨_, h2⟩
  exact h h2

/-- A pass over a three-element fallback list is three padding steps. -/
lemma padPass_triple (acc : List String) (a b c : String) :
    padPass acc [a, b, c] = padStep (padStep (padStep acc a) b) c := rfl

/-- Unfolding one iteration of the `while` loop. -/
lemma padWhile_succ (n : Nat) (acc fbs : List String) :
    padWhile (n + 1) acc fbs =
      if acc.length < 3 then padWhile n (padPass acc fbs) fbs else acc := rfl

/-- With three pairwise-distinct fallbacks none of which is already
present, the pad-and-truncate phase is the same as appending the fallback
list and truncating: the `while` loop stabilizes after at most one pass, so
the fuel of `padPoints` is never exhausted. -/
lemma padPoints_take_eq (acc : List String) (a b c : String)
    (ha : a ∉ acc) (hb : b ∉ acc) (hc : c ∉ acc)
    (hab : a ≠ b) (hac : a ≠ c) (hbc : b ≠ c) :
    (padPoints acc [a, b, c]).take 3 = (acc ++ [a, b, c]).take 3 := by
  rcases acc with _ | ⟨x, _ | ⟨y, _ | ⟨z, rest⟩⟩⟩
  · have e1 : padStep ([] : List String) a = [a] := by
      rw [padStep_grow _ _ (by simp) (by simp)]; rfl
    have e2 : padStep [a] b = [a, b] := by
      rw [padStep_grow _ _ (by simpa using Ne.symm hab) (by simp)]; rfl
    have e3 : padStep [a, b] c = [a, b, c] := by
      rw [padStep_grow _ _ (by simp [Ne.symm hac, Ne.symm hbc]) (by simp)]; rfl
    show (padWhile 2 [] [a, b, c]).take 3 = _
    rw [padWhile_succ, if_pos (by simp), padPass_triple, e1, e2, e3,
      padWhile_succ, if_neg (by simp)]
    rfl
  · have hbx : b ≠ x := by simpa using hb
    have e1 : padStep [x] a = [x, a] := by
      rw [padStep_grow _ _ ha (by simp)]; rfl
    have e2 : padStep [x, a] b = [x, a, b] := by
      rw [padStep_grow _ _ (by simp [hbx, Ne.symm hab]) (by simp)]; rfl
    have e3 : padStep [x, a, b] c = [x, a, b] := padStep_full _ _ (by simp)
    show (padWhile 3 [x] [a, b, c]).take 3 = _
    rw [padWhile_succ, if_pos (by simp), padPass_triple, e1, e2, e3,
      padWhile_succ, if_neg (by simp)]
    rfl
  · have e1 : padStep [x, y] a = [x, y, a] := by
      rw [padStep_grow _ _ ha (by simp)]; rfl
    have e2 : padStep [x, y, a] b = [x, y, a] := padStep_full _ _ (by simp)
    have e3 : padStep [x, y, a] c = [x, y, a] := padStep_full _ _ (by simp)
    show (padWhile 4 [x, y] [a, b, c]).take 3 = _
    rw [padWhile_succ, if_pos (by simp), padPass_triple, e1, e2, e3,
      padWhile_succ, if_neg (by simp)]
    rfl
  · have hlen : ¬ (x :: y :: z :: rest).length < 3 := by
      simp [List.length_cons]
    show (padWhile ((x :: y :: z :: rest).length + 2) (x :: y :: z :: rest)
        [a, b, c]).take 3 = _
    rw [show (x :: y :: z :: rest).length + 2 =
        ((x :: y :: z :: rest).length + 1) + 1 from rfl,
      padWhile_succ, if_neg hlen,
      List.take_append_of_le_length (by simp [List.length_cons])]

/-- The key of a message only depends on its first 12 characters, hence
only on the (long enough) fixed prefix of the message template. -/
lemma msgKey_append (p t : String) (h : 12 ≤ p.data.length) :
    msgKey (p ++ t) = p.data.take 12 := by
  unfold msgKey
  rw [String.data_append, List.take_append_of_le_length h]

lemma msgKey_bullMsg1 (v : ℚ) :
    msgKey (bullMsg1 v) = ("Strong profitability: ROE of ").data.take 12 := by
  unfold bullMsg1; exact msgKey_append _ _ (by decide)

lemma msgKey_bullMsg2 (v : ℚ) :
    msgKey (bullMsg2 v) = ("Healthy margins: Gross margin of ").data.take 12 := by
  unfold bullMsg2; exact msgKey_append _ _ (by decide)

lemma msgKey_bullMsg3 (v : ℚ) :
    msgKey (bullMsg3 v) =
      ("Strong operating efficiency: Operating margin of ").data.take 12 := by
  unfold bullMsg3; exact msgKey_append _ _ (by decide)

lemma msgKey_bullMsg4 (v : ℚ) :
    msgKey (bullMsg4 v) = ("Solid liquidity: Current ratio of ").data.take 12 := by
  unfold bullMsg4; exact msgKey_append _ _ (by decide)

lemma msgKey_bullMsg5 (v : ℚ) :
    msgKey (bullMsg5 v) =
      ("Conservative balance sheet: Debt/Equity of ").data.take 12 := by
  unfold bullMsg5; exact msgKey_append _ _ (by decide)

lemma msgKey_bullMsg6 (v : ℚ) :
    msgKey (bullMsg6 v) =
      ("Consistent growth: Revenue CAGR of ").data.take 12 := by
  unfold bullMsg6; exact msgKey_append _ _ (by decide)

lemma msgKey_bearMsg1 (v : ℚ) :
    msgKey (bearMsg1 v) = ("Premium valuation: P/E ratio of ").data.take 12 := by
  unfold bearMsg1; exact msgKey_append _ _ (by decide)

lemma msgKey_bearMsg2 (v : ℚ) :
    msgKey (bearMsg2 v) =
      ("High leverage risk: Debt/Equity of ").data.take 12 := by
  unfold bearMsg2; exact msgKey_append _ _ (by decide)

lemma msgKey_bearMsg3 (v : ℚ) :
    msgKey (bearMsg3 v) = ("Revenue decline: ").data.take 12 ∨
      msgKey (bearMsg3 v) = ("Slowing growth: ").data.take 12 := by
  unfold bearMsg3
  by_cases h : v < 0
  · rw [if_pos h]; exact Or.inl (msgKey_append _ _ (by decide))
  · rw [if_neg h]; exact Or.inr (msgKey_append _ _ (by decide))

lemma msgKey_bearMsg4 (v : ℚ) :
    msgKey (bearMsg4 v) =
      ("Thin margins: Operating margin of ").data.take 12 := by
  unfold bearMsg4; exact msgKey_append _ _ (by decide)

lemma msgKey_bearMsg5 (v : ℚ) :
    msgKey (bearMsg5 v) =
      ("Liquidity concerns: Current ratio of ").data.take 12 := by
  unfold bearMsg5; exact msgKey_append _ _ (by decide)

lemma msgKey_bearMsg6 (v : ℚ) :
    msgKey (bearMsg6 v) = ("Negative profitability: ROE of ").data.take 12 ∨
      msgKey (bearMsg6 v) = ("Low returns: ROE of ").data.take 12 := by
  unfold bearMsg6
  by_cases h : v < 0
  · rw [if_pos h]; exact Or.inl (msgKey_append _ _ (by decide))
  · rw [if_neg h]; exact Or.inr (msgKey_append _ _ (by decide))

/-- The keys of a one-rule segment form a sublist of the rule's key. -/
lemma fireIf_map_sublist (v : Option ℚ) (c : ℚ → Bool) (m : ℚ → String)
    (k : List Char) (hk : ∀ x, msgKey (m x) = k) :
    List.Sublist ((fireIf v c m).map msgKey) [k] := by
  cases v with
  | none => exact List.nil_sublist _
  | some x =>
      cases h : c x with
      | false => simp [fireIf, h]
      | true => simp [fireIf, h, hk x]

/-- Segment key sublist for a rule with two possible wordings. -/
lemma fireIf_map_sublist_or (v : Option ℚ) (c : ℚ → Bool) (m : ℚ → String)
    (k k2 : List Char) (hk : ∀ x, msgKey (m x) = k ∨ msgKey (m x) = k2) :
    List.Sublist ((fireIf v c m).map msgKey) [k, k2] := by
  cases v with
  | none => exact List.nil_sublist _
  | some x =>
      cases h : c x with
      | false => simp [fireIf, h]
      | true =>
          rcases hk x with h2 | h2
          · simp [fireIf, h, h2]
          · simp [fireIf, h, h2]

/-- Segment key sublist for the two-value cash-flow rule. -/
lemma fireIf2_map_sublist (a b : Option ℚ) (c : ℚ → ℚ → Bool) (m : String)
    (k : List Char) (hk : msgKey m = k) :
    List.Sublist ((fireIf2 a b c m).map msgKey) [k] := by
  cases a with
  | none => exact List.nil_sublist _
  | some x =>
      cases b with
      | none => exact List.nil_sublist _
      | some y =>
          cases h : c x y with
          | false => simp [fireIf2, h]
          | true => simp [fireIf2, h, hk]

/-- The keys of the fired bull points are a sublist of the bull rule keys. -/
lemma bull_fired_keys (r : FinRecord) :
    List.Sublist ((bull_fired r).map msgKey) bullKeys := by
  unfold bull_fired bullKeys
  simp only [List.map_append]
  exact
    ((((((fireIf_map_sublist _ _ _ _ msgKey_bullMsg1).append
      (fireIf_map_sublist _ _ _ _ msgKey_bullMsg2)).append
      (fireIf_map_sublist _ _ _ _ msgKey_bullMsg3)).append
      (fireIf_map_sublist _ _ _ _ msgKey_bullMsg4)).append
      (fireIf_map_sublist _ _ _ _ msgKey_bullMsg5)).append
      (fireIf_map_sublist _ _ _ _ msgKey_bullMsg6)).append
      (fireIf2_map_sublist _ _ _ _ _ rfl)

/-- The keys of the fired bear points are a sublist of the bear rule keys. -/
lemma bear_fired_keys (r : FinRecord) :
    List.Sublist ((bear_fired r).map msgKey) bearKeys := by
  unfold bear_fired bearKeys
  simp only [List.map_append]
  exact
    (((((fireIf_map_sublist _ _ _ _ msgKey_bearMsg1).append
      (fireIf_map_sublist _ _ _ _ msgKey_bearMsg2)).append
      (fireIf_map_sublist_or _ _ _ _ _ msgKey_bearMsg3)).append
      (fireIf_map_sublist _ _ _ _ msgKey_bearMsg4)).append
      (fireIf_map_sublist _ _ _ _ msgKey_bearMsg5)).append
      (fireIf_map_sublist_or _ _ _ _ _ msgKey_bearMsg6)

/-- Every fired bull point has a bull rule key. -/
lemma mem_bull_fired_key (r : FinRecord) (s : String)
    (h : s ∈ bull_fired r) : msgKey s ∈ bullKeys :=
  (bull_fired_keys r).subset (List.mem_map_of_mem msgKey h)

/-- Every fired bear point has a bear rule key. -/
lemma mem_bear_fired_key (r : FinRecord) (s : String)
    (h : s ∈ bear_fired r) : msgKey s ∈ bearKeys :=
  (bear_fired_keys r).subset (List.mem_map_of_mem msgKey h)

/-- No bull fallback string can be produced by a bull rule. -/
lemma bull_fallback_not_fired (r : FinRecord) (fb : String)
    (hfb : fb ∈ bull_fallbacks) : fb ∉ bull_fired r := by
  intro h
  have hk := mem_bull_fired_key r fb h
  have : fb = "Established market position with brand recognition" ∨
      fb = "Diversified revenue streams reduce concentration risk" ∨
      fb = "Experienced management team with track record" := by
    simpa [bull_fallbacks] using hfb
  rcases this with rfl | rfl | rfl <;> exact absurd hk (by decide)

/-- No bear fallback string can be produced by a bear rule. -/
lemma bear_fallback_not_fired (r : FinRecord) (fb : String)
    (hfb : fb ∈ bear_fallbacks) : fb ∉ bear_fired r := by
  intro h
  have hk := mem_bear_fired_key r fb h
  have : fb = "Competitive pressure may compress margins over time" ∨
      fb = "Macroeconomic sensitivity could impact near-term results" ∨
      fb = "Execution risk in strategic initiatives" := by
    simpa [bear_fallbacks] using hfb
  rcases this with rfl | rfl | rfl <;> exact absurd hk (by decide)

/-- The bull case is the fired points followed by the fallbacks, truncated
to three entries. -/
lemma bull_case_eq (r : FinRecord) :
    generate_bull_case r = ((bull_fired r) ++ bull_fallbacks).take 3 := by
  unfold generate_bull_case
  exact padPoints_take_eq _ _ _ _
    (bull_fallback_not_fired r _ (by simp [bull_fallbacks]))
    (bull_fallback_not_fired r _ (by simp [bull_fallbacks]))
    (bull_fallback_not_fired r _ (by simp [bull_fallbacks]))
    (by decide) (by decide) (by decide)

/-- The bear case is the fired points followed by the fallbacks, truncated
to three entries. -/
lemma bear_case_eq (r : FinRecord) :
    generate_bear_case r = ((bear_fired r) ++ bear_fallbacks).take 3 := by
  unfold generate_bear_case
  exact padPoints_take_eq _ _ _ _
    (bear_fallback_not_fired r _ (by simp [bear_fallbacks]))
    (bear_fallback_not_fired r _ (by simp [bear_fallbacks]))
    (bear_fallback_not_fired r _ (by simp [bear_fallbacks]))
    (by decide) (by decide) (by decide)

/-- The bull case always has exactly three entries. -/
lemma bull_case_length (r : FinRecord) : (generate_bull_case r).length = 3 := by
  rw [bull_case_eq]
  simp only [List.length_take, List.length_append]
  have : bull_fallbacks.length = 3 := rfl
  omega

/-- The bear case always has exactly three entries. -/
lemma bear_case_length (r : FinRecord) : (generate_bear_case r).length = 3 := by
  rw [bear_case_eq]
  simp only [List.length_take, List.length_append]
  have : bear_fallbacks.length = 3 := rfl
  omega

/-- The bull case has no duplicate entries: all rule keys and fallback keys
are pairwise distinct. -/
lemma bull_case_nodup (r : FinRecord) : (generate_bull_case r).Nodup := by
  rw [bull_case_eq]
  refine (List.take_sublist 3 _).nodup (List.Nodup.of_map msgKey ?_)
  rw [List.map_append]
  exact ((bull_fired_keys r).append
    (List.Sublist.refl (bull_fallbacks.map msgKey))).nodup (by decide)

/-- The bear case has no duplicate entries. -/
lemma bear_case_nodup (r : FinRecord) : (generate_bear_case r).Nodup := by
  rw [bear_case_eq]
  refine (List.take_sublist 3 _).nodup (List.Nodup.of_map msgKey ?_)
  rw [List.map_append]
  exact ((bear_fired_keys r).append
    (List.Sublist.refl (bear_fallbacks.map msgKey))).nodup (by decide)

/-- On numeric inputs, the Financial Health branch decides purely. -/
lemma financialHealthE_some (cr de : ℚ) :
    financialHealthE (Option.some cr) (Option.some de) =
      Except.ok (financialHealthLevel cr de) := by
  by_cases h1 : cr ≥ mkRat 15 10 <;> by_cases h2 : de ≤ mkRat 5 10 <;>
    by_cases h3 : cr < 1 <;> by_cases h4 : de > 2 <;>
    simp [financialHealthE, financialHealthLevel, cmpNum, ok_bind, pure_ok,
      h1, h2, h3, h4]

/-- On a numeric input, the Liquidity branch decides purely. -/
lemma liquidityE_some (cr : ℚ) :
    liquidityE (Option.some cr) = Except.ok (liquidityLevel cr) := by
  by_cases h1 : cr ≥ 2 <;> by_cases h2 : cr < 1 <;>
    simp [liquidityE, liquidityLevel, cmpNum, ok_bind, pure_ok, h1, h2]

/-- `assess_risks` never raises: every lookup carries a numeric default, so
the unguarded comparisons always see numbers. -/
lemma assess_risks_ok (r : FinRecord) :
    assess_risks r = Except.ok (assess_risks_unguarded r) := by
  unfold assess_risks assess_risks_unguarded
  rw [get_ratio_some_eq r ("Current_Ratio") 1,
    get_ratio_some_eq r ("Debt_to_Equity") 1,
    get_ratio_some_eq r ("PE_Ratio") 20,
    get_growth_some_eq r ("Total_Revenue_CAGR") (mkRat 5 100),
    get_ratio_some_eq r ("ROE") (mkRat 10 100),
    get_ratio_some_eq r ("Operating_Margin") (mkRat 10 100)]
  simp [financialHealthE_some, liquidityE_some, valuationLevel, growthLevel,
    profitabilityLevel, ok_bind, pure_ok, Option.getD]

/-- Every two-threshold decision yields one of the three levels. -/
lemma ite_level (c1 c2 : Prop) [Decidable c1] [Decidable c2] :
    (if c1 then "LOW" else if c2 then "HIGH" else "MODERATE") = "LOW" ∨
    (if c1 then "LOW" else if c2 then "HIGH" else "MODERATE") = "MODERATE" ∨
    (if c1 then "LOW" else if c2 then "HIGH" else "MODERATE") = "HIGH" := by
  split_ifs <;> simp

/-- Claim C1: for every record — including records with only missing keys,
NaN or `None` values, non-coercible values, or an empty/absent ratio table
(all of which the model renders as a `none` or non-`num` lookup) — no
exception escapes any judgment-generation call: a raised `float()` coercion
inside either accessor body is caught and yields the caller-supplied
default, a missing/NaN/`None`/non-numeric cell likewise resolves to the
default silently, and `assess_risks` (the only judgment method whose
comparisons could raise on a `None`) returns `ok` unconditionally; the
remaining judgment methods are total functions of caught lookups. -/
theorem c1_no_exception_escapes (r : FinRecord) (name : String)
    (d : Option ℚ) :
    ((get_ratio_body r name d).isOk = false → _get_ratio r name d = d) ∧
    ((get_growth_body r name d).isOk = false → _get_growth_rate r name d = d) ∧
    (r.ratios name = Option.none ∨ r.ratios name = Option.some RawVal.nanv ∨
      r.ratios name = Option.some RawVal.nonev ∨
      r.ratios name = Option.some RawVal.bad →
      _get_ratio r name d = d) ∧
    (r.growth name = Option.none ∨ r.growth name = Option.some RawVal.nanv ∨
      r.growth name = Option.some RawVal.nonev ∨
      r.growth name = Option.some RawVal.bad →
      _get_growth_rate r name d = d) ∧
    (assess_risks r).isOk = true := by
  refine ⟨get_ratio_catch r name d, get_growth_catch r name d, ?_, ?_, ?_⟩
  · rintro (h | h | h | h) <;>
      (unfold _get_ratio get_ratio_body; rw [h]) <;> rfl
  · rintro (h | h | h | h) <;>
      (unfold _get_growth_rate get_growth_body; rw [h]) <;>
      cases d <;> rfl
  · rw [assess_risks_ok]
    rfl

/-- Witness for C1, exercising the caught `float()` failure, the
missing-key default, and the `assess_risks` success on both an empty and a
failing record. -/
theorem c1_no_exception_escapes_witness :
    _get_ratio badValueRecord ("BadRatio") (Option.some 7) = Option.some 7 ∧
    _get_growth_rate badValueRecord ("BadGrowth") (Option.some 8) =
      Option.some 8 ∧
    _get_ratio emptyRecord ("ROE") Option.none = Option.none ∧
    _get_growth_rate emptyRecord ("Total_Revenue_CAGR") Option.none =
      Option.none ∧
    (assess_risks emptyRecord).isOk = true ∧
    (assess_risks badValueRecord).isOk = true :=
  ⟨(c1_no_exception_escapes badValueRecord ("BadRatio")
      (Option.some 7)).1 (by decide),
   (c1_no_exception_escapes badValueRecord ("BadGrowth")
      (Option.some 8)).2.1 (by decide),
   (c1_no_exception_escapes emptyRecord ("ROE")
      Option.none).2.2.1 (Or.inl rfl),
   (c1_no_exception_escapes emptyRecord ("Total_Revenue_CAGR")
      Option.none).2.2.2.1 (Or.inl rfl),
   (c1_no_exception_escapes emptyRecord ("ROE") Option.none).2.2.2.2,
   (c1_no_exception_escapes badValueRecord ("ROE") Option.none).2.2.2.2⟩

/-- Claim C2: for every record the bull and bear cases have exactly three
entries, contain no duplicates, and consist of the fired rule messages in
rule order followed by the fallbacks in list order, truncated to three. -/
theorem c2_cases_three_nodup (r : FinRecord) :
    (generate_bull_case r).length = 3 ∧ (generate_bull_case r).Nodup ∧
    generate_bull_case r = ((bull_fired r) ++ bull_fallbacks).take 3 ∧
    (generate_bear_case r).length = 3 ∧ (generate_bear_case r).Nodup ∧
    generate_bear_case r = ((bear_fired r) ++ bear_fallbacks).take 3 :=
  ⟨bull_case_length r, bull_case_nodup r, bull_case_eq r,
   bear_case_length r, bear_case_nodup r, bear_case_eq r⟩

/-- Claim C3: `assess_risks` always succeeds with exactly the five fixed
categories in order, each mapped to LOW, MODERATE or HIGH; on the fully
empty record the defaults resolve every category (to MODERATE). -/
theorem c3_risk_map_total (r : FinRecord) :
    ∃ l, assess_risks r = Except.ok l ∧
      l.map Prod.fst =
        [("Financial Health" : String), "Valuation", "Growth", "Liquidity",
         "Profitability"] ∧
      (∀ p ∈ l, p.2 = "LOW" ∨ p.2 = "MODERATE" ∨ p.2 = "HIGH") ∧
      l.length = 5 ∧
      assess_risks emptyRecord =
        Except.ok [("Financial Health", "MODERATE"), ("Valuation", "MODERATE"),
          ("Growth", "MODERATE"), ("Liquidity", "MODERATE"),
          ("Profitability", "MODERATE")] := by
  refine ⟨assess_risks_unguarded r, assess_risks_ok r, rfl, ?_, rfl, ?_⟩
  · intro p hp
    simp only [assess_risks_unguarded, List.mem_cons, List.not_mem_nil,
      or_false] at hp
    rcases hp with rfl | rfl | rfl | rfl | rfl
    · exact ite_level _ _
    · exact ite_level _ _
    · exact ite_level _ _
    · exact ite_level _ _
    · exact ite_level _ _
  · rw [assess_risks_ok]
    rfl

/-- Witness for C3 at the fully empty record. -/
theorem c3_risk_map_total_witness :
    ∃ l, assess_risks emptyRecord = Except.ok l ∧
      l.map Prod.fst =
        [("Financial Health" : String), "Valuation", "Growth", "Liquidity",
         "Profitability"] ∧
      (∀ p ∈ l, p.2 = "LOW" ∨ p.2 = "MODERATE" ∨ p.2 = "HIGH") ∧
      l.length = 5 ∧
      assess_risks emptyRecord =
        Except.ok [("Financial Health", "MODERATE"), ("Valuation", "MODERATE"),
          ("Growth", "MODERATE"), ("Liquidity", "MODERATE"),
          ("Profitability", "MODERATE")] :=
  c3_risk_map_total emptyRecord

/-- Claim C4: when all seven bull signals fire, the bull case is exactly
the messages of rules 1, 2 and 3 (ROE, gross margin, operating margin), in
that order. -/
theorem c4_seven_signals (r : FinRecord) (roe gm om cr de g ni ocf : ℚ)
    (hroe : _get_ratio r ("ROE") Option.none = Option.some roe)
    (hroe2 : roe > mkRat 15 100)
    (hgm : _get_ratio r ("Gross_Margin") Option.none = Option.some gm)
    (hgm2 : gm > mkRat 30 100)
    (hom : _get_ratio r ("Operating_Margin") Option.none = Option.some om)
    (hom2 : om > mkRat 15 100)
    (hcr : _get_ratio r ("Current_Ratio") Option.none = Option.some cr)
    (hcr2 : cr > mkRat 15 10)
    (hde : _get_ratio r ("Debt_to_Equity") Option.none = Option.some de)
    (hde2 : de < mkRat 5 10)
    (hg : _get_growth_rate r ("Total_Revenue_CAGR") Option.none = Option.some g)
    (hg2 : g > mkRat 10 100)
    (hni : _get_ratio r ("Net_Income") Option.none = Option.some ni)
    (hocf : _get_ratio r ("Operating_Cash_Flow") Option.none = Option.some ocf)
    (hocf2 : ocf > ni) (hni2 : ni > 0) :
    generate_bull_case r = [bullMsg1 roe, bullMsg2 gm, bullMsg3 om] := by
  have hfired : bull_fired r =
      [bullMsg1 roe, bullMsg2 gm, bullMsg3 om, bullMsg4 cr, bullMsg5 de,
       bullMsg6 g, bullMsg7] := by
    unfold bull_fired
    rw [hroe, hgm, hom, hcr, hde, hg, hni, hocf]
    simp [fireIf, fireIf2, hroe2, hgm2, hom2, hcr2, hde2, hg2, hocf2, hni2]
  rw [bull_case_eq, hfired]
  rfl

/-- Witness for C4 at a record firing all seven bull signals. -/
theorem c4_seven_signals_witness :
    generate_bull_case bullWitnessRecord = [bullMsg1 1, bullMsg2 1, bullMsg3 1] :=
  c4_seven_signals bullWitnessRecord 1 1 1 2 0 1 10 12
    (by decide) (by decide) (by decide) (by decide) (by decide) (by decide)
    (by decide) (by decide) (by decide) (by decide) (by decide) (by decide)
    (by decide) (by decide) (by decide) (by decide)

/-- Claim C5: when no bull signal fires, the bull case is exactly the three
fixed fallback strings in their fixed order. -/
theorem c5_zero_signals (r : FinRecord) (h : bull_fired r = []) :
    generate_bull_case r = bull_fallbacks := by
  rw [bull_case_eq, h]
  rfl

/-- Witness for C5 at the empty record. -/
theorem c5_zero_signals_witness :
    bull_fired emptyRecord = [] ∧
      generate_bull_case emptyRecord = bull_fallbacks :=
  ⟨by decide, c5_zero_signals emptyRecord (by decide)⟩

/-- Claim C6: the valuation range is price × 0.80 / price / price × 1.25
with fixed percentages −20 and 25 when a positive price is present, and the
all-zero degenerate scenario when the price is absent or non-positive. -/
theorem c6_valuation_range (r : FinRecord) (p : ℚ)
    (hp : _get_ratio r ("Current_Price") Option.none = Option.some p)
    (hpos : 0 < p) :
    calculate_valuation_range r =
      ⟨p * mkRat 80 100, p, p * mkRat 125 100, -20, 25⟩ ∧
    (∀ r2 : FinRecord,
      _get_ratio r2 ("Current_Price") Option.none = Option.none →
        calculate_valuation_range r2 = ⟨0, 0, 0, -20, 25⟩) ∧
    (∀ (r2 : FinRecord) (q : ℚ),
      _get_ratio r2 ("Current_Price") Option.none = Option.some q → q ≤ 0 →
        calculate_valuation_range r2 = ⟨0, 0, 0, -20, 25⟩) := by
  refine ⟨?_, ?_, ?_⟩
  · unfold calculate_valuation_range
    rw [hp]
    dsimp only
    rw [if_neg (not_le.mpr hpos)]
  · intro r2 h2
    unfold calculate_valuation_range
    rw [h2]
  · intro r2 q h2 hq
    unfold calculate_valuation_range
    rw [h2]
    dsimp only
    rw [if_pos hq]

/-- Witness for C6: price 100 yields 80 / 100 / 125. -/
theorem c6_valuation_range_witness :
    calculate_valuation_range priceRecord =
      ⟨80, 100, 125, -20, 25⟩ ∧
    calculate_valuation_range emptyRecord = ⟨0, 0, 0, -20, 25⟩ := by
  have h := c6_valuation_range priceRecord 100 (by decide) (by decide)
  refine ⟨?_, h.2.1 emptyRecord (by decide)⟩
  rw [h.1]
  have e1 : (100 : ℚ) * mkRat 80 100 = 80 := by
    norm_num [Rat.mkRat_eq_div]
  have e2 : (100 : ℚ) * mkRat 125 100 = 125 := by
    norm_num [Rat.mkRat_eq_div]
  rw [e1, e2]

/-- Claim C7: the red-flag list is never empty — it is the list of
triggered warnings (uncapped) or the single success sentinel. -/
theorem c7_red_flags_nonempty (r : FinRecord) :
    detect_red_flags r ≠ [] ∧
    detect_red_flags r =
      (if red_fired r = [] then [redFlagSentinel] else red_fired r) := by
  refine ⟨?_, rfl⟩
  by_cases h : red_fired r = []
  · simp [detect_red_flags, h]
  · simp [detect_red_flags, h]

/-- Claim C8: a `Debt_to_Equity` of exactly 0.5 fires neither the bull
low-leverage rule (strict `<`) nor the bear high-leverage rule (strict
`>`), so neither leverage message can appear in the respective output. -/
theorem c8_de_boundary (r : FinRecord)
    (h : _get_ratio r ("Debt_to_Equity") Option.none =
      Option.some (mkRat 1 2)) :
    (∀ v, bullMsg5 v ∉ generate_bull_case r) ∧
    (∀ v, bearMsg2 v ∉ generate_bear_case r) := by
  constructor
  · intro v hv
    rw [bull_case_eq] at hv
    have hv2 := (List.take_sublist 3 _).subset hv
    rcases List.mem_append.mp hv2 with hf | hfb
    · have h5 : fireIf (_get_ratio r ("Debt_to_Equity") Option.none)
          (fun v => decide (v < mkRat 5 10)) bullMsg5 = [] := by
        rw [h]; rfl
      have hsub : List.Sublist ((bull_fired r).map msgKey)
          ([("Strong profitability: ROE of ").data.take 12] ++
           [("Healthy margins: Gross margin of ").data.take 12] ++
           [("Strong operating efficiency: Operating margin of ").data.take 12] ++
           [("Solid liquidity: Current ratio of ").data.take 12] ++
           ([] : List (List Char)) ++
           [("Consistent growth: Revenue CAGR of ").data.take 12] ++
           [msgKey bullMsg7]) := by
        unfold bull_fired
        rw [h5]
        simp only [List.map_append, List.map_nil]
        exact
          ((((((fireIf_map_sublist _ _ _ _ msgKey_bullMsg1).append
            (fireIf_map_sublist _ _ _ _ msgKey_bullMsg2)).append
            (fireIf_map_sublist _ _ _ _ msgKey_bullMsg3)).append
            (fireIf_map_sublist _ _ _ _ msgKey_bullMsg4)).append
            (List.nil_sublist [])).append
            (fireIf_map_sublist _ _ _ _ msgKey_bullMsg6)).append
            (fireIf2_map_sublist _ _ _ _ _ rfl)
      have hkmem := hsub.subset (List.mem_map_of_mem msgKey hf)
      rw [msgKey_bullMsg5] at hkmem
      exact absurd hkmem (by decide)
    · have hk := List.mem_map_of_mem msgKey hfb
      rw [msgKey_bullMsg5] at hk
      exact absurd hk (by decide)
  · intro v hv
    rw [bear_case_eq] at hv
    have hv2 := (List.take_sublist 3 _).subset hv
    rcases List.mem_append.mp hv2 with hf | hfb
    · have h2 : fireIf (_get_ratio r ("Debt_to_Equity") Option.none)
          (fun v => decide (v > mkRat 15 10)) bearMsg2 = [] := by
        rw [h]; rfl
      have hsub : List.Sublist ((bear_fired r).map msgKey)
          ([("Premium valuation: P/E ratio of ").data.take 12] ++
           ([] : List (List Char)) ++
           [("Revenue decline: ").data.take 12,
            ("Slowing growth: ").data.take 12] ++
           [("Thin margins: Operating margin of ").data.take 12] ++
           [("Liquidity concerns: Current ratio of ").data.take 12] ++
           [("Negative profitability: ROE of ").data.take 12,
            ("Low returns: ROE of ").data.take 12]) := by
        unfold bear_fired
        rw [h2]
        simp only [List.map_append, List.map_nil]
        exact
          (((((fireIf_map_sublist _ _ _ _ msgKey_bearMsg1).append
            (List.nil_sublist [])).append
            (fireIf_map_sublist_or _ _ _ _ _ msgKey_bearMsg3)).append
            (fireIf_map_sublist _ _ _ _ msgKey_bearMsg4)).append
            (fireIf_map_sublist _ _ _ _ msgKey_bearMsg5)).append
            (fireIf_map_sublist_or _ _ _ _ _ msgKey_bearMsg6)
      have hkmem := hsub.subset (List.mem_map_of_mem msgKey hf)
      rw [msgKey_bearMsg2] at hkmem
      exact absurd hkmem (by decide)
    · have hk := List.mem_map_of_mem msgKey hfb
      rw [msgKey_bearMsg2] at hk
      exact absurd hk (by decide)

/-- Witness for C8 at a record with `Debt_to_Equity` exactly 0.5. -/
theorem c8_de_boundary_witness :
    (∀ v, bullMsg5 v ∉ generate_bull_case deHalfRecord) ∧
    (∀ v, bearMsg2 v ∉ generate_bear_case deHalfRecord) :=
  c8_de_boundary deHalfRecord (by decide)

/-- Claim C9: every judgment method is a pure function of the record: the
state-passing translations leave the engine state unchanged, and a second
call on the resulting state returns the same output. -/
theorem c9_judgments_pure (s : EngineState) :
    (generate_bull_caseS s).2 = s ∧
    (generate_bull_caseS ((generate_bull_caseS s).2)).1 =
      (generate_bull_caseS s).1 ∧
    (generate_bear_caseS s).2 = s ∧
    (generate_bear_caseS ((generate_bear_caseS s).2)).1 =
      (generate_bear_caseS s).1 ∧
    (assess_risksS s).2 = s ∧
    (assess_risksS ((assess_risksS s).2)).1 = (assess_risksS s).1 ∧
    (detect_red_flagsS s).2 = s ∧
    (detect_red_flagsS ((detect_red_flagsS s).2)).1 =
      (detect_red_flagsS s).1 ∧
    (calculate_valuation_rangeS s).2 = s ∧
    (calculate_valuation_rangeS ((calculate_valuation_rangeS s).2)).1 =
      (calculate_valuation_rangeS s).1 ∧
    (get_key_metricsS s).2 = s ∧
    (get_key_metricsS ((get_key_metricsS s).2)).1 = (get_key_metricsS s).1 :=
  ⟨rfl, rfl, rfl, rfl, rfl, rfl, rfl, rfl, rfl, rfl, rfl, rfl⟩

/-- Claim C10: a lookup with a numeric default never yields `None`, so the
`is not None` guards of `assess_risks` always succeed and the `None`
branches are unreachable: the guarded computation equals the unguarded
one. -/
theorem c10_guards_always_succeed (r : FinRecord) (name : String) (d g : ℚ) :
    (∃ q, _get_ratio r name (Option.some d) = Option.some q) ∧
    (∃ q, _get_growth_rate r name (Option.some g) = Option.some q) ∧
    assess_risks r = Except.ok (assess_risks_unguarded r) :=
  ⟨⟨_, get_ratio_some_eq r name d⟩, ⟨_, get_growth_some_eq r name g⟩,
    assess_risks_ok r⟩
